import Mathlib

/-!
Verification of the social-networking web application in `src/app.py`
(registration, login, posts, likes, the civic-engagement quiz and the
representative lookup), as a shallow embedding in Lean.

Conventions of the embedding:
* The SQLite database is a record of three tables (`users`, `posts`,
  `comments`) plus the auto-increment counters for the primary keys.
* Request handlers become pure functions from the database state (and the
  request data) to a result and the new state.
* Python floats are modelled by rationals; Python `round(x, 1)` is
  round-half-to-even at one decimal place.
* The werkzeug password-hash primitives are not part of this repository,
  so they are modelled from the spec, parametrised by an abstract
  pseudo-random function `prf : salt → password → digest`.
-/

namespace Rotunda

/-! ## Credential store (werkzeug `generate_password_hash` / `check_password_hash`) -/

/-- Modelled from the spec: werkzeug's `generate_password_hash(password,
method=pbkdf2:sha256)` is library code absent from `src/`.  Per the spec it
produces a salted, irreversible digest stored as a string; werkzeug's storage
format is `method$salt$digest`.  The digest is `prf salt password` for an
abstract pseudo-random function `prf`. -/
def generate_password_hash (prf : String → String → String)
    (salt password : String) : String :=
  "pbkdf2:sha256" ++ "$" ++ salt ++ "$" ++ prf salt password

/-- Split a character list at the first `$`, returning the parts before and
after it; `none` when no `$` occurs.  This mirrors one step of Python's
`pwhash.split("$", 2)`. -/
def splitFirstDollar : List Char → Option (List Char × List Char)
  | [] => none
  | c :: cs =>
    if c = '$' then some ([], cs)
    else
      match splitFirstDollar cs with
      | some (pre, rest) => some (c :: pre, rest)
      | none => none

/-- Modelled from the spec: parse a stored hash string of the form
`method$salt$digest` (splitting at the first two `$` separators, as Python's
`split("$", 2)` does); `none` when the string is malformed. -/
def parseHash (s : String) : Option (String × String × String) :=
  match splitFirstDollar s.data with
  | none => none
  | some (m, rest) =>
    match splitFirstDollar rest with
    | none => none
    | some (saltPart, hashPart) =>
      some (String.mk m, String.mk saltPart, String.mk hashPart)

/-- Modelled from the spec: werkzeug's `check_password_hash(pwhash, password)`
is library code absent from `src/`.  Per the spec it returns `true` iff the
password matches the hash, and fails closed (returns `false`, throwing no
exception) on malformed hash input.  It is total, so it cannot throw. -/
def check_password_hash (prf : String → String → String)
    (pwhash password : String) : Bool :=
  match parseHash pwhash with
  | none => false
  | some (_, saltPart, hashPart) => prf saltPart password == hashPart

/-! ## Data model (`User`, `Post`, `Comment` and the database state) -/

/-- The `User` table row of `app.py`: `username` and `email` carry a
`unique=True` constraint, `zip_code` is nullable. -/
structure User where
  id : Nat
  username : String
  email : String
  password : String
  zip_code : Option String
deriving DecidableEq, Repr

/-- The `Post` table row of `app.py`: `likes` is an SQL `Integer` defaulting
to `0`. -/
structure Post where
  id : Nat
  content : String
  user_id : Nat
  likes : Int
deriving DecidableEq, Repr

/-- The `Comment` table row of `app.py`. -/
structure Comment where
  id : Nat
  content : String
  user_id : Nat
  post_id : Nat
deriving DecidableEq, Repr

/-- The SQLite database state: the three tables in insertion order, plus the
auto-increment counters for their integer primary keys. -/
structure DB where
  users : List User
  posts : List Post
  comments : List Comment
  nextUserId : Nat
  nextPostId : Nat
  nextCommentId : Nat
deriving DecidableEq, Repr

/-- The freshly created database (`init_db` / `db.create_all()`): empty
tables; SQLite auto-increment ids start at 1. -/
def init_db : DB :=
  { users := [], posts := [], comments := [],
    nextUserId := 1, nextPostId := 1, nextCommentId := 1 }

/-! ## Registration (`register`, `app.py` lines 60-81) -/

/-- Outcome of a `POST /register` request. -/
inductive RegisterResult where
  /-- `flash("Username already exists")` and redirect back to `/register`. -/
  | duplicateHandle
  /-- `db.session.commit()` violates a `unique=True` column constraint
  (in this sequential model: the new row's email clashes with an existing
  row); SQLAlchemy raises `IntegrityError`, the handler has no
  `try`/`except`, so the request fails with an error page and no row is
  inserted. -/
  | integrityError
  /-- Account stored; redirect to `/login`. -/
  | success
deriving DecidableEq, Repr

/-- The `POST` branch of `register` (`app.py` lines 62-79): look up the
username; if taken, flash and redirect; otherwise insert a new `User` with
the hashed password and commit.  The commit enforces the `unique=True`
constraints on `username` and `email` declared in the `User` model. -/
def register (prf : String → String → String) (salt : String) (db : DB)
    (username email password : String) (zip_code : Option String) :
    RegisterResult × DB :=
  match db.users.find? (fun u => u.username == username) with
  | some _ => (.duplicateHandle, db)
  | none =>
    let newUser : User :=
      { id := db.nextUserId, username := username, email := email,
        password := generate_password_hash prf salt password,
        zip_code := zip_code }
    if db.users.any (fun u => u.username == newUser.username || u.email == newUser.email) then
      (.integrityError, db)
    else
      (.success,
       { db with users := db.users ++ [newUser],
                 nextUserId := db.nextUserId + 1 })

/-! ## Login (`login`, `app.py` lines 84-97) -/

/-- A rendered-or-redirect HTTP response. -/
inductive Response where
  | redirect (target : String)
  | render (template : String)
deriving DecidableEq, Repr

/-- What a `POST /login` request observably produces: the flashed messages,
the response, and the session (`login_user` records the account id). -/
structure LoginOutcome where
  flashes : List String
  response : Response
  session : Option Nat
deriving DecidableEq, Repr

/-- The generic failure outcome of `login`: `flash("Invalid username or
password")`, re-render the login page, no session. -/
def loginFailureOutcome : LoginOutcome :=
  { flashes := ["Invalid username or password"],
    response := .render "login.html",
    session := none }

/-- The `POST` branch of `login` (`app.py` lines 86-97): look up by username,
verify the password against the stored hash; on success call `login_user`
and redirect to `index`, otherwise flash the generic message and re-render
the login page. -/
def login (prf : String → String → String) (db : DB)
    (username password : String) : LoginOutcome :=
  match db.users.find? (fun u => u.username == username) with
  | some u =>
    if check_password_hash prf u.password password then
      { flashes := [], response := .redirect "index", session := some u.id }
    else
      loginFailureOutcome
  | none => loginFailureOutcome

/-! ## Feed (`index`, `create_post`, `like_post`, `add_comment`) -/

/-- The query of `index` (`app.py` line 56):
`Post.query.order_by(Post.id.desc()).all()` — all posts sorted by
descending id.  Mirrors SQL `ORDER BY id DESC` as a stable sort with the
total order "id is greater or equal". -/
def index (db : DB) : List Post :=
  db.posts.insertionSort (fun a b => b.id ≤ a.id)

/-- `create_post` (`app.py` lines 107-114): insert a new `Post` row for the
current user; `likes` takes the column default `0`. -/
def create_post (db : DB) (userId : Nat) (content : String) : DB :=
  { db with
      posts := db.posts ++
        [{ id := db.nextPostId, content := content, user_id := userId,
           likes := 0 }],
      nextPostId := db.nextPostId + 1 }

/-- Increment the `likes` of the row returned by `Post.query.get(post_id)`
(the first — in fact only, ids being primary keys — row with that id),
leaving every other row unchanged. -/
def bumpLikes (postId : Nat) : List Post → List Post
  | [] => []
  | p :: ps =>
    if p.id == postId then { p with likes := p.likes + 1 } :: ps
    else p :: bumpLikes postId ps

/-- `like_post` (`app.py` lines 117-124): `Post.query.get(post_id)`; if a row
exists, `post.likes += 1` and commit; otherwise do nothing.  Either way
redirect to `index` with no error. -/
def like_post (db : DB) (postId : Nat) : DB :=
  match db.posts.find? (fun p => p.id == postId) with
  | some _ => { db with posts := bumpLikes postId db.posts }
  | none => db

/-- A sequence of `like_post` requests, applied in order. -/
def likeSeq (db : DB) (postIds : List Nat) : DB :=
  postIds.foldl like_post db

/-- `add_comment` (`app.py` lines 127-134): insert unconditionally, the
post id is not validated. -/
def add_comment (db : DB) (userId postId : Nat) (content : String) : DB :=
  { db with
      comments := db.comments ++
        [{ id := db.nextCommentId, content := content, user_id := userId,
           post_id := postId }],
      nextCommentId := db.nextCommentId + 1 }

/-! ## Quiz scorer (`civic_quiz`, `calculate_civic_engagement_score`) -/

/-- Python's `round` to the nearest integer: round half to even. -/
def roundHalfEven (q : ℚ) : ℤ :=
  if q - ⌊q⌋ < 1/2 then ⌊q⌋
  else if (1:ℚ)/2 < q - ⌊q⌋ then ⌊q⌋ + 1
  else if 2 ∣ ⌊q⌋ then ⌊q⌋ else ⌊q⌋ + 1

/-- `calculate_civic_engagement_score` (`app.py` lines 151-155):
`round((sum(answers) / len(answers)) * 100, 1)`, with Python float
arithmetic modelled by exact rationals and `round(x, 1)` as
round-half-to-even at one decimal place. -/
def calculate_civic_engagement_score (answers : List ℤ) : ℚ :=
  let total_questions : ℕ := answers.length
  let correct_answers : ℤ := answers.sum
  let score : ℚ := ((correct_answers : ℚ) / (total_questions : ℚ)) * 100
  (roundHalfEven (score * 10) : ℚ) / 10

/-- A submitted form: key-value pairs; `find?` mirrors
`request.form.get`. -/
def formGet (form : List (String × String)) (key : String) : Option String :=
  (form.find? (fun kv => kv.1 == key)).map (fun kv => kv.2)

/-- One quiz answer as read by `civic_quiz`:
`int(request.form.get("answerN", 0))`.  A missing field yields the integer
default `0`; a present field is parsed by Python's `int`, `none` modelling
the `ValueError` a non-numeric string raises. -/
def formAnswer (form : List (String × String)) (key : String) : Option ℤ :=
  match formGet form key with
  | none => some 0
  | some v => v.toInt?

/-- The `POST` branch of `civic_quiz` (`app.py` lines 140-147): read the
three answer fields, score them, render the result; `none` models the
uncaught `ValueError` when a present field is not an integer literal. -/
def civic_quiz (form : List (String × String)) : Option ℚ :=
  match formAnswer form "answer1", formAnswer form "answer2",
        formAnswer form "answer3" with
  | some a1, some a2, some a3 =>
    some (calculate_civic_engagement_score [a1, a2, a3])
  | _, _, _ => none

/-! ## Representative lookup (`representatives`, `app.py` lines 158-193) -/

/-- One entry of the `offices` list of the civic-information API response,
with the fields `representatives` reads (`.get` returning `Option`,
subscripting a required field). -/
structure Office where
  name : Option String
  officialIndices : List Nat
deriving DecidableEq, Repr

/-- One entry of the `officials` list of the civic-information API
response. -/
structure Official where
  name : Option String
  party : Option String
  phones : List String
  urls : List String
  emails : List String
  photoUrl : Option String
deriving DecidableEq, Repr

/-- The parsed JSON body: `data.get("offices", ...)` and
`data.get("officials", ...)`, the defaults applied. -/
structure CivicData where
  offices : List Office
  officials : List Official
deriving DecidableEq, Repr

/-- The dictionary built for each representative (`app.py` lines 179-187). -/
structure Rep where
  name : Option String
  office : Option String
  party : Option String
  phones : List String
  urls : List String
  emails : List String
  photoUrl : Option String
deriving DecidableEq, Repr

/-- What one HTTP `GET` can produce: a transport failure
(`requests.RequestException` with message `msg`) or a response with a
status code and a parsed JSON body. -/
inductive HttpResult where
  | transportError (msg : String)
  | response (status : Nat) (body : CivicData)

/-- The request URL (`app.py` line 167): key and address interpolated into
the query string. -/
def apiUrl (apiKey zipCode : String) : String :=
  "https://www.googleapis.com/civicinfo/v2/representatives?key=" ++ apiKey ++
    "&address=" ++ zipCode

/-- The message of the `requests.HTTPError` that `raise_for_status` raises
on a status of 400 or above, as a function of status and URL. -/
def httpErrorMessage (status : Nat) (url : String) : String :=
  toString status ++ " Error for url: " ++ url

/-- The flash-message head common to every external-failure report
(`app.py` line 192): the f-string interpolating str(e) after the fixed head. -/
def fetchErrorHead : String :=
  "Error fetching representative information: "

/-- The flash message of the missing-postal-code precondition failure
(`app.py` line 162). -/
def missingZipMessage : String :=
  "Please update your zip code in your profile."

/-- Python truthiness of `current_user.zip_code`: `None` and the empty
string are falsy. -/
def zipMissing : Option String → Bool
  | none => true
  | some s => s.isEmpty

/-- The inner double loop (`app.py` lines 176-188): one `Rep` per index of
each office, resolved through `officials[index]`; `none` models the
uncaught `IndexError` when an index is out of range. -/
def buildReps (d : CivicData) : Option (List Rep) :=
  (d.offices.mapM (fun (office : Office) =>
    office.officialIndices.mapM (fun i =>
      (d.officials.get? i).map (fun (official : Official) =>
        { name := official.name, office := office.name,
          party := official.party, phones := official.phones,
          urls := official.urls, emails := official.emails,
          photoUrl := official.photoUrl })))).map List.flatten

/-- Outcome of a `GET /representatives` request. -/
inductive PageResult where
  /-- `flash(msg)` then redirect to `target`. -/
  | redirectFlash (target msg : String)
  /-- `render_template("representatives.html", ...)` with the list built. -/
  | page (reps : List Rep)
  /-- An exception that is not a `requests.RequestException` escapes the
  handler (the `IndexError` of a malformed body). -/
  | crash
deriving DecidableEq, Repr

/-- `representatives` (`app.py` lines 158-193), parametrised by an HTTP
oracle `http : url → HttpResult`.  The first component records the URLs of
the HTTP requests actually issued, in order. -/
def representatives (http : String → HttpResult) (apiKey : String)
    (user : User) : List String × PageResult :=
  if zipMissing user.zip_code then
    ([], .redirectFlash "index" missingZipMessage)
  else
    let url := apiUrl apiKey (user.zip_code.getD "")
    match http url with
    | .transportError msg =>
      ([url], .redirectFlash "index" (fetchErrorHead ++ msg))
    | .response status body =>
      if 400 ≤ status then
        ([url], .redirectFlash "index"
          (fetchErrorHead ++ httpErrorMessage status url))
      else
        match buildReps body with
        | some reps => ([url], .page reps)
        | none => ([url], .crash)

/-! ## Concrete sample values (used by witnesses and counterexamples) -/

/-- A concrete pseudo-random function for witnesses. -/
def samplePrf : String → String → String :=
  fun salt password => salt ++ ":" ++ password

/-- A concrete stored hash: `generate_password_hash` of `"pw1"` with salt
`"ab"`. -/
def sampleHash : String := generate_password_hash samplePrf "ab" "pw1"

/-- A registered account with a postal code on file. -/
def sampleUser : User :=
  { id := 1, username := "alice", email := "alice@example.com",
    password := sampleHash, zip_code := some "02139" }

/-- A registered account without a postal code on file. -/
def sampleNoZipUser : User :=
  { id := 2, username := "zoe", email := "zoe@example.com",
    password := sampleHash, zip_code := none }

/-- A store holding exactly `sampleUser`. -/
def sampleDB : DB :=
  { users := [sampleUser], posts := [], comments := [],
    nextUserId := 2, nextPostId := 1, nextCommentId := 1 }

/-- A single sample post with no likes yet. -/
def samplePost : Post := { id := 1, content := "hello", user_id := 1, likes := 0 }

/-- A store holding `sampleUser` and `samplePost`. -/
def sampleLikeDB : DB :=
  { users := [sampleUser], posts := [samplePost], comments := [],
    nextUserId := 2, nextPostId := 2, nextCommentId := 1 }

/-- An HTTP oracle whose every request fails in transport. -/
def httpDown : String → HttpResult := fun _ => .transportError "boom"

/-- An HTTP oracle whose every request yields status 503 with an empty
body. -/
def httpUnavailable : String → HttpResult :=
  fun _ => .response 503 { offices := [], officials := [] }

/-- The quiz scorer exactly as the spec words it: `100 * sum(answers) /
count(answers)`, rounded to one decimal place.  Declared only to be
compared against the implementation's formula. -/
def spec_score (answers : List ℤ) : ℚ :=
  (roundHalfEven ((100 * (answers.sum : ℚ) / (answers.length : ℚ)) * 10) : ℚ) / 10

instance : IsTotal Post (fun a b => b.id ≤ a.id) :=
  ⟨fun a b => Nat.le_total b.id a.id⟩

instance : IsTrans Post (fun a b => b.id ≤ a.id) :=
  ⟨fun _ _ _ hab hbc => le_trans hbc hab⟩

instance : IsRefl Post (fun a b : Post => a.likes ≤ b.likes) :=
  ⟨fun a => le_refl a.likes⟩

/-! ## Lemmas about the stored-hash format -/

theorem splitFirstDollar_append (l₁ l₂ : List Char) (h : '$' ∉ l₁) :
    splitFirstDollar (l₁ ++ '$' :: l₂) = some (l₁, l₂) := by
  induction l₁ with
  | nil => simp [splitFirstDollar]
  | cons c cs ih =>
    have hc : ¬ c = '$' := fun hx => h (by simp [hx])
    have hcs : '$' ∉ cs := fun hm => h (List.mem_cons_of_mem _ hm)
    simp [splitFirstDollar, hc, ih hcs]

theorem splitFirstDollar_eq_none (l : List Char) (h : '$' ∉ l) :
    splitFirstDollar l = none := by
  induction l with
  | nil => rfl
  | cons c cs ih =>
    have hc : ¬ c = '$' := fun hx => h (by simp [hx])
    have hcs : '$' ∉ cs := fun hm => h (List.mem_cons_of_mem _ hm)
    simp [splitFirstDollar, hc, ih hcs]

theorem splitFirstDollar_eq_some (l : List Char) :
    ∀ a b, splitFirstDollar l = some (a, b) → l = a ++ '$' :: b ∧ '$' ∉ a := by
  induction l with
  | nil => intro a b h; simp [splitFirstDollar] at h
  | cons c cs ih =>
    intro a b h
    simp only [splitFirstDollar] at h
    by_cases hc : c = '$'
    · rw [if_pos hc] at h
      simp only [Option.some.injEq, Prod.mk.injEq] at h
      obtain ⟨rfl, rfl⟩ := h
      subst hc
      simp
    · rw [if_neg hc] at h
      cases hsp : splitFirstDollar cs with
      | none => rw [hsp] at h; simp at h
      | some pr =>
        obtain ⟨pre, rest⟩ := pr
        rw [hsp] at h
        simp only [Option.some.injEq, Prod.mk.injEq] at h
        obtain ⟨rfl, rfl⟩ := h
        obtain ⟨hcs, hpre⟩ := ih pre rest hsp
        constructor
        · rw [hcs]; simp
        · simp only [List.mem_cons]
          rintro (h1 | h1)
          · exact hc h1.symm
          · exact hpre h1

theorem parseHash_generate (prf : String → String → String)
    (salt password : String) (hsalt : '$' ∉ salt.data) :
    parseHash (generate_password_hash prf salt password) =
      some ("pbkdf2:sha256", salt, prf salt password) := by
  have hm : '$' ∉ "pbkdf2:sha256".data := by decide
  have hdata : (generate_password_hash prf salt password).data =
      "pbkdf2:sha256".data ++ '$' :: (salt.data ++ '$' :: (prf salt password).data) := by
    simp [generate_password_hash, String.data_append]
  rw [parseHash, hdata, splitFirstDollar_append _ _ hm]
  simp only [splitFirstDollar_append _ _ hsalt]

theorem check_password_hash_generate (prf : String → String → String)
    (salt password : String) (hsalt : '$' ∉ salt.data) :
    check_password_hash prf (generate_password_hash prf salt password)
      password = true := by
  rw [check_password_hash, parseHash_generate prf salt password hsalt]
  simp

theorem parseHash_eq_none_of_count (s : String) (h : s.data.count '$' < 2) :
    parseHash s = none := by
  rw [parseHash]
  cases hsp : splitFirstDollar s.data with
  | none => rfl
  | some pr =>
    obtain ⟨a, b⟩ := pr
    obtain ⟨hl, hna⟩ := splitFirstDollar_eq_some s.data a b hsp
    have hca : a.count '$' = 0 := List.count_eq_zero.mpr hna
    have hcb : b.count '$' = 0 := by
      rw [hl] at h
      simp [List.count_append, hca, List.count_cons_self] at h
      omega
    have hnb : '$' ∉ b := List.count_eq_zero.mp hcb
    simp [splitFirstDollar_eq_none b hnb]

/-! ## Claims -/

/-- Claim C9: for every password and every malformed stored-hash string —
one lacking the two `$` separators of the `method$salt$digest` format — the
credential verify operation fails closed: it returns `false`.  Being a
total Lean function, `check_password_hash` can throw nothing into the
caller's control flow. -/
theorem claim_C9_verify_fails_closed (prf : String → String → String)
    (pwhash password : String) (h : pwhash.data.count '$' < 2) :
    check_password_hash prf pwhash password = false := by
  rw [check_password_hash, parseHash_eq_none_of_count pwhash h]

theorem claim_C9_witness :
    "nothash".data.count '$' < 2 ∧
      check_password_hash samplePrf "nothash" "pw" = false :=
  ⟨by decide, claim_C9_verify_fails_closed samplePrf "nothash" "pw" (by decide)⟩

/-- Claim C3: every failing login — unknown handle in one store, or known
handle with a non-verifying password in another — produces the one generic
outcome: the flash `Invalid username or password`, the re-rendered login
page, no session.  The two failure causes are therefore observably
identical to the caller. -/
theorem claim_C3_login_failures_indistinguishable
    (prf prf' : String → String → String) (db db' : DB)
    (u p u' p' : String)
    (hunknown : db.users.find? (fun x => x.username == u) = none)
    (user : User)
    (hfound : db'.users.find? (fun x => x.username == u') = some user)
    (hbad : check_password_hash prf' user.password p' = false) :
    login prf db u p = login prf' db' u' p' ∧
      login prf db u p = loginFailureOutcome := by
  have h1 : login prf db u p = loginFailureOutcome := by
    simp [login, hunknown]
  have h2 : login prf' db' u' p' = loginFailureOutcome := by
    simp [login, hfound, hbad]
  exact ⟨h1.trans h2.symm, h1⟩

theorem claim_C3_witness :
    login samplePrf init_db "bob" "x" = login samplePrf sampleDB "alice" "nope" ∧
      login samplePrf init_db "bob" "x" = loginFailureOutcome :=
  claim_C3_login_failures_indistinguishable samplePrf samplePrf init_db sampleDB
    "bob" "x" "alice" "nope" (by decide) sampleUser (by decide) (by decide)

/-- Claim C1, amended: for a registration whose handle is not already
present and whose contact address is not already present, `register`
succeeds, stores the account with the hashed password, and a subsequent
`login` with the same handle and plaintext password succeeds.  The salt
hypothesis records that werkzeug salts never contain the `$` separator.
As stated the claim is false: the `unique=True` email column makes
`register` fail on a fresh handle with a stored contact address (see the
counterexample). -/
theorem claim_C1_register_then_login (prf : String → String → String)
    (salt : String) (hsalt : '$' ∉ salt.data) (db : DB)
    (username email password : String) (zip_code : Option String)
    (hfresh : db.users.find? (fun u => u.username == username) = none)
    (hemail : ∀ u ∈ db.users, ¬ u.email = email) :
    (register prf salt db username email password zip_code).1 =
        RegisterResult.success ∧
      (register prf salt db username email password zip_code).2.users =
        db.users ++
          [{ id := db.nextUserId, username := username, email := email,
             password := generate_password_hash prf salt password,
             zip_code := zip_code }] ∧
      login prf (register prf salt db username email password zip_code).2
          username password =
        { flashes := [], response := Response.redirect "index",
          session := some db.nextUserId } := by
  have hany : db.users.any
      (fun u => u.username == username || u.email == email) = false := by
    rw [List.any_eq_false]
    intro u hu
    have h1 := List.find?_eq_none.mp hfresh u hu
    simp only [Bool.or_eq_true, beq_iff_eq, not_or]
    exact ⟨fun hx => h1 (by simp [hx]), hemail u hu⟩
  have hreg : register prf salt db username email password zip_code =
      (RegisterResult.success,
        { db with
            users := db.users ++
              [{ id := db.nextUserId, username := username, email := email,
                 password := generate_password_hash prf salt password,
                 zip_code := zip_code }],
            nextUserId := db.nextUserId + 1 }) := by
    simp [register, hfresh, hany]
  refine ⟨by rw [hreg], by rw [hreg], ?_⟩
  rw [hreg]
  simp [login, List.find?_append, hfresh,
    check_password_hash_generate prf salt password hsalt]

theorem claim_C1_witness :
    (register samplePrf "cd" sampleDB "bob" "bob@example.com" "pw2" none).1 =
        RegisterResult.success ∧
      (register samplePrf "cd" sampleDB "bob" "bob@example.com" "pw2" none).2.users =
        sampleDB.users ++
          [{ id := sampleDB.nextUserId, username := "bob",
             email := "bob@example.com",
             password := generate_password_hash samplePrf "cd" "pw2",
             zip_code := none }] ∧
      login samplePrf
          (register samplePrf "cd" sampleDB "bob" "bob@example.com" "pw2" none).2
          "bob" "pw2" =
        { flashes := [], response := Response.redirect "index",
          session := some sampleDB.nextUserId } :=
  claim_C1_register_then_login samplePrf "cd" (by decide) sampleDB "bob"
    "bob@example.com" "pw2" none (by decide) (by decide)

/-- Claim C1, counterexample to the claim as stated: in a store holding
`sampleUser` (handle `alice`, email `alice@example.com`), registering the
fresh handle `bob` with the already-stored contact address does not
succeed — the commit violates the `unique=True` email constraint. -/
theorem claim_C1_counterexample :
    sampleDB.users.find? (fun u => u.username == "bob") = none ∧
      (register samplePrf "cd" sampleDB "bob" "alice@example.com" "pw2" none).1 ≠
        RegisterResult.success := by decide

/-- Claim C4, amended: whenever a first registration with a handle
succeeds, a second registration with the same handle is rejected with the
duplicate-handle report and changes nothing, whatever its other fields.
As stated ("for every pair ... the second always fails") the claim is
false: when the first registration is itself rejected by the unique-email
constraint, the handle stays free and the second registration can succeed
(see the counterexample). -/
theorem claim_C4_second_registration_rejected
    (prf prf' : String → String → String) (salt salt' : String) (db : DB)
    (username email password : String) (zip_code : Option String)
    (email' password' : String) (zip_code' : Option String)
    (hfirst : (register prf salt db username email password zip_code).1 =
      RegisterResult.success) :
    register prf' salt'
        (register prf salt db username email password zip_code).2
        username email' password' zip_code' =
      (RegisterResult.duplicateHandle,
        (register prf salt db username email password zip_code).2) := by
  cases hfind : db.users.find? (fun u => u.username == username) with
  | some u => simp [register, hfind] at hfirst
  | none =>
    cases hany : db.users.any
        (fun u => u.username == username || u.email == email) with
    | true => simp [register, hfind, hany] at hfirst
    | false =>
      have hreg : register prf salt db username email password zip_code =
          (RegisterResult.success,
            { db with
                users := db.users ++
                  [{ id := db.nextUserId, username := username, email := email,
                     password := generate_password_hash prf salt password,
                     zip_code := zip_code }],
                nextUserId := db.nextUserId + 1 }) := by
        simp [register, hfind, hany]
      rw [hreg]
      simp [register, List.find?_append, hfind]

theorem claim_C4_witness :
    (register samplePrf "cd" sampleDB "bob" "bob@example.com" "pw2" none).1 =
        RegisterResult.success ∧
      register samplePrf "ef"
          (register samplePrf "cd" sampleDB "bob" "bob@example.com" "pw2" none).2
          "bob" "ted@example.com" "pw3" (some "10001") =
        (RegisterResult.duplicateHandle,
          (register samplePrf "cd" sampleDB "bob" "bob@example.com" "pw2" none).2) :=
  ⟨by decide,
   claim_C4_second_registration_rejected samplePrf samplePrf "cd" "ef" sampleDB
     "bob" "bob@example.com" "pw2" none "ted@example.com" "pw3" (some "10001")
     (by decide)⟩

/-- Claim C4, counterexample to the claim as stated: both registrations
carry the handle `bob`; the first is rejected by the unique-email
constraint (the handle stays free), so the second — with a fresh contact
address — succeeds rather than failing. -/
theorem claim_C4_counterexample :
    (register samplePrf "cd" sampleDB "bob" "alice@example.com" "pw" none).1 ≠
        RegisterResult.success ∧
      (register samplePrf "ef"
          (register samplePrf "cd" sampleDB "bob" "alice@example.com" "pw" none).2
          "bob" "bob@example.com" "pw" none).1 =
        RegisterResult.success := by decide

/-- Claim C2: the quiz scorer is the pure function `100 * sum(answers) /
count(answers)` rounded to one decimal place — it equals `spec_score`,
which is that formula verbatim — and it takes the claimed values `100.0`,
`0.0` and `66.7` on the three sample vectors.  Determinism ("the same
input always yields the same output") holds because
`calculate_civic_engagement_score` is a pure function of its argument. -/
theorem claim_C2_score_formula :
    calculate_civic_engagement_score [1, 1, 1] = 100 ∧
      calculate_civic_engagement_score [0, 0, 0] = 0 ∧
      calculate_civic_engagement_score [1, 0, 1] = 667 / 10 ∧
      ∀ answers : List ℤ,
        calculate_civic_engagement_score answers = spec_score answers := by
  refine ⟨?_, ?_, ?_, ?_⟩
  · rw [calculate_civic_engagement_score]
    norm_num [roundHalfEven]
  · rw [calculate_civic_engagement_score]
    norm_num [roundHalfEven]
  · rw [calculate_civic_engagement_score]
    norm_num [roundHalfEven]
  · intro answers
    simp only [calculate_civic_engagement_score, spec_score]
    have h : (answers.sum : ℚ) / (answers.length : ℚ) * 100 * 10 =
        100 * (answers.sum : ℚ) / (answers.length : ℚ) * 10 := by ring
    rw [h]

/-- Claim C10 (implicit): each quiz answer form field that is absent is
read as the integer `0` (the default of `request.form.get("answerN", 0)`),
so a submission with all three fields missing scores `0.0`. -/
theorem claim_C10_missing_answers_default_zero :
    (∀ form key, formGet form key = none → formAnswer form key = some 0) ∧
      ∀ form, formGet form "answer1" = none → formGet form "answer2" = none →
        formGet form "answer3" = none → civic_quiz form = some 0 := by
  have hpart : ∀ form key, formGet form key = none →
      formAnswer form key = some 0 := by
    intro form key h
    rw [formAnswer, h]
  refine ⟨hpart, ?_⟩
  intro form h1 h2 h3
  rw [civic_quiz, hpart form "answer1" h1, hpart form "answer2" h2,
    hpart form "answer3" h3]
  norm_num [calculate_civic_engagement_score, roundHalfEven]

theorem claim_C10_witness :
    formAnswer [] "answer1" = some 0 ∧ civic_quiz [] = some 0 :=
  ⟨claim_C10_missing_answers_default_zero.1 [] "answer1" rfl,
   claim_C10_missing_answers_default_zero.2 [] rfl rfl rfl⟩

/-- Claim C5: `index` returns all stored posts ordered by descending post
id (a permutation of the table, sorted by the descending-id relation), and
after creating posts P1, P2, P3 in that order in the fresh database it
returns exactly [P3, P2, P1]. -/
theorem claim_C5_index_newest_first :
    (∀ db : DB, (index db).Perm db.posts ∧
        List.Sorted (fun a b : Post => b.id ≤ a.id) (index db)) ∧
      index (create_post (create_post (create_post init_db 1 "P1") 1 "P2")
          1 "P3") =
        [{ id := 3, content := "P3", user_id := 1, likes := 0 },
         { id := 2, content := "P2", user_id := 1, likes := 0 },
         { id := 1, content := "P1", user_id := 1, likes := 0 }] := by
  constructor
  · intro db
    exact ⟨List.perm_insertionSort _ _, List.sorted_insertionSort _ _⟩
  · decide

theorem bumpLikes_append (pid : Nat) (l₁ : List Post) (p : Post)
    (l₂ : List Post) (h₁ : ∀ q ∈ l₁, (q.id == pid) = false)
    (hp : p.id = pid) :
    bumpLikes pid (l₁ ++ p :: l₂) =
      l₁ ++ { p with likes := p.likes + 1 } :: l₂ := by
  induction l₁ with
  | nil => simp [bumpLikes, hp]
  | cons q qs ih =>
    have hq : (q.id == pid) = false := h₁ q (List.mem_cons_self q qs)
    have hqs : ∀ x ∈ qs, (x.id == pid) = false :=
      fun x hx => h₁ x (List.mem_cons_of_mem _ hx)
    simp [bumpLikes, hq, ih hqs]

theorem bumpLikes_forall2 (pid : Nat) (l : List Post) :
    List.Forall₂ (fun a b : Post => a.likes ≤ b.likes) l (bumpLikes pid l) := by
  induction l with
  | nil => exact List.Forall₂.nil
  | cons p ps ih =>
    rw [bumpLikes]
    by_cases hp : (p.id == pid) = true
    · rw [if_pos hp]
      exact List.Forall₂.cons
        (by show p.likes ≤ p.likes + 1; omega) (List.forall₂_refl ps)
    · rw [if_neg hp]
      exact List.Forall₂.cons le_rfl ih

theorem forall2_likes_trans {l₁ l₂ l₃ : List Post}
    (h12 : List.Forall₂ (fun a b : Post => a.likes ≤ b.likes) l₁ l₂)
    (h23 : List.Forall₂ (fun a b : Post => a.likes ≤ b.likes) l₂ l₃) :
    List.Forall₂ (fun a b : Post => a.likes ≤ b.likes) l₁ l₃ := by
  induction h12 generalizing l₃ with
  | nil =>
    cases h23
    exact List.Forall₂.nil
  | cons hab h ih =>
    cases h23 with
    | cons hbc h' => exact List.Forall₂.cons (le_trans hab hbc) (ih h')

theorem forall2_likes_mem_right {l₁ l₂ : List Post}
    (h : List.Forall₂ (fun a b : Post => a.likes ≤ b.likes) l₁ l₂) :
    ∀ b ∈ l₂, ∃ a ∈ l₁, a.likes ≤ b.likes := by
  induction h with
  | nil => intro b hb; simp at hb
  | cons hab h ih =>
    intro b hb
    rcases List.mem_cons.mp hb with rfl | hmem
    · exact ⟨_, List.mem_cons_self _ _, hab⟩
    · obtain ⟨a, ha, hr⟩ := ih b hmem
      exact ⟨a, List.mem_cons_of_mem _ ha, hr⟩

theorem like_post_forall2 (db : DB) (pid : Nat) :
    List.Forall₂ (fun a b : Post => a.likes ≤ b.likes) db.posts
      (like_post db pid).posts := by
  rw [like_post]
  cases h : db.posts.find? (fun p => p.id == pid) with
  | some p => exact bumpLikes_forall2 pid db.posts
  | none => exact List.forall₂_refl db.posts

theorem likeSeq_forall2 (db : DB) (pids : List Nat) :
    List.Forall₂ (fun a b : Post => a.likes ≤ b.likes) db.posts
      (likeSeq db pids).posts := by
  induction pids generalizing db with
  | nil => exact List.forall₂_refl db.posts
  | cons pid rest ih =>
    exact forall2_likes_trans (like_post_forall2 db pid)
      (ih (like_post db pid))

theorem likeSeq_nonneg (db : DB) (pids : List Nat)
    (h : ∀ p ∈ db.posts, 0 ≤ p.likes) :
    ∀ p ∈ (likeSeq db pids).posts, 0 ≤ p.likes := by
  intro p hp
  obtain ⟨q, hq, hle⟩ :=
    forall2_likes_mem_right (likeSeq_forall2 db pids) p hp
  exact le_trans (h q hq) hle

/-- Claim C6: `like_post` on an id held by some stored post increments that
post's like counter by exactly one and leaves every other row untouched;
on an id held by no post it returns the store unchanged, surfacing no
error.  Consequently, along any sequence of `like_post` calls each post's
counter is non-decreasing, and — counters starting non-negative — stays
non-negative. -/
theorem claim_C6_like_post :
    (∀ (db : DB) (pid : Nat) (l₁ : List Post) (p : Post) (l₂ : List Post),
        db.posts = l₁ ++ p :: l₂ → (∀ q ∈ l₁, (q.id == pid) = false) →
        p.id = pid →
        (like_post db pid).posts =
          l₁ ++ { p with likes := p.likes + 1 } :: l₂) ∧
      (∀ (db : DB) (pid : Nat),
        db.posts.find? (fun q => q.id == pid) = none →
        like_post db pid = db) ∧
      (∀ (db : DB) (pids : List Nat),
        List.Forall₂ (fun a b : Post => a.likes ≤ b.likes) db.posts
          (likeSeq db pids).posts) ∧
      ∀ (db : DB) (pids : List Nat), (∀ p ∈ db.posts, 0 ≤ p.likes) →
        ∀ p ∈ (likeSeq db pids).posts, 0 ≤ p.likes := by
  refine ⟨?_, ?_, likeSeq_forall2, likeSeq_nonneg⟩
  · intro db pid l₁ p l₂ hsplit hl₁ hp
    have hnone : List.find? (fun q => q.id == pid) l₁ = none :=
      List.find?_eq_none.mpr (by intro x hx; simp [hl₁ x hx])
    have hfind : db.posts.find? (fun q => q.id == pid) = some p := by
      rw [hsplit, List.find?_append, hnone]
      simp [List.find?, hp]
    rw [like_post, hfind]
    show bumpLikes pid db.posts = _
    rw [hsplit]
    exact bumpLikes_append pid l₁ p l₂ hl₁ hp
  · intro db pid h
    rw [like_post, h]

theorem claim_C6_witness :
    (like_post sampleLikeDB 1).posts =
        [{ id := 1, content := "hello", user_id := 1, likes := 1 }] ∧
      like_post sampleLikeDB 2 = sampleLikeDB ∧
      List.Forall₂ (fun a b : Post => a.likes ≤ b.likes) sampleLikeDB.posts
        (likeSeq sampleLikeDB [1, 1]).posts :=
  ⟨by simpa [samplePost] using
     claim_C6_like_post.1 sampleLikeDB 1 [] samplePost [] rfl (by simp) rfl,
   claim_C6_like_post.2.1 sampleLikeDB 2 (by decide),
   claim_C6_like_post.2.2.1 sampleLikeDB [1, 1]⟩

/-- Claim C7: a representative lookup by an account whose postal code is
absent or empty issues no HTTP request at all (the request log is empty)
and reports the distinct missing-postal-code message — which is not an
instance of the network-error report, whose messages all start with
`fetchErrorHead`. -/
theorem claim_C7_missing_zip_no_request (http : String → HttpResult)
    (apiKey : String) (user : User) (h : zipMissing user.zip_code = true) :
    representatives http apiKey user =
        ([], PageResult.redirectFlash "index" missingZipMessage) ∧
      fetchErrorHead.data.isPrefixOf missingZipMessage.data = false := by
  constructor
  · simp [representatives, h]
  · decide

theorem claim_C7_witness :
    representatives httpDown "key0" sampleNoZipUser =
        ([], PageResult.redirectFlash "index" missingZipMessage) ∧
      fetchErrorHead.data.isPrefixOf missingZipMessage.data = false :=
  claim_C7_missing_zip_no_request httpDown "key0" sampleNoZipUser rfl

/-- Claim C8: when the account has a postal code and the external call
fails — in transport, or with a status of 400 or above — the lookup issues
exactly one HTTP request (the request log is the one URL, so no retry) and
reports the failure flash carrying the underlying message, redirecting
instead of returning representatives. -/
theorem claim_C8_http_failure_no_retry (http : String → HttpResult)
    (apiKey : String) (user : User) (h : zipMissing user.zip_code = false) :
    (∀ msg, http (apiUrl apiKey (user.zip_code.getD "")) =
        HttpResult.transportError msg →
      representatives http apiKey user =
        ([apiUrl apiKey (user.zip_code.getD "")],
         PageResult.redirectFlash "index" (fetchErrorHead ++ msg))) ∧
      ∀ status body, http (apiUrl apiKey (user.zip_code.getD "")) =
          HttpResult.response status body → 400 ≤ status →
        representatives http apiKey user =
          ([apiUrl apiKey (user.zip_code.getD "")],
           PageResult.redirectFlash "index"
             (fetchErrorHead ++
               httpErrorMessage status (apiUrl apiKey (user.zip_code.getD "")))) := by
  constructor
  · intro msg hmsg
    simp [representatives, h, hmsg]
  · intro status body hresp hstatus
    simp [representatives, h, hresp, hstatus]

theorem claim_C8_witness :
    representatives httpDown "key0" sampleUser =
        ([apiUrl "key0" "02139"],
         PageResult.redirectFlash "index" (fetchErrorHead ++ "boom")) ∧
      representatives httpUnavailable "key0" sampleUser =
        ([apiUrl "key0" "02139"],
         PageResult.redirectFlash "index"
           (fetchErrorHead ++ httpErrorMessage 503 (apiUrl "key0" "02139"))) :=
  ⟨(claim_C8_http_failure_no_retry httpDown "key0" sampleUser rfl).1
     "boom" rfl,
   (claim_C8_http_failure_no_retry httpUnavailable "key0" sampleUser rfl).2
     503 { offices := [], officials := [] } rfl (by decide)⟩

end Rotunda
